import Mathlib

/-!
# Verification of the AXA Remote protocol and position-estimator engine

Shallow embedding of `axaremote/axaremote.py` (class `AXARemote`) and the
relevant behaviour of `axaremote/axaconnection.py`.

Modelling conventions:
* Wall-clock time and positions are rationals (`ℚ`); Python floats carry
  exact decimal values in every scenario the claims exercise.
* The transport (`AXAConnection`) is a record holding a script of incoming
  lines (already decoded; `decode(errors="ignore")` never raises) and a log
  of written lines.  `readline()` on an exhausted script returns the empty
  string, exactly like a serial read timing out.
* Python exceptions that the engine itself raises are the `PyExc` type;
  functions that can raise return `Except PyExc α` together with the state
  at the moment of the raise (all field mutations before the raise persist,
  as in Python).
* `time.time()` is an explicit `now : ℚ` argument; loops that poll the
  clock take the list of successive clock readings.
-/

/-- Python's `str.strip(" \n\r")` strips exactly these three characters
(`AXARemote._send_command`, line 292 of `axaremote.py`). -/
def pyStripChar (c : Char) : Bool :=
  c == ' ' || c == '\n' || c == '\r'

/-- `response.strip(" \n\r")`. -/
def pyStrip (s : String) : String :=
  String.mk (((s.toList.dropWhile pyStripChar).reverse.dropWhile pyStripChar).reverse)

/-- Python's `str.split(maxsplit=1)`: leading whitespace is skipped, the
first whitespace run after the first token separates it from the remainder;
a remainder consisting only of whitespace is dropped. -/
def pySplitMax1 (s : String) : List String :=
  let cs := s.toList.dropWhile Char.isWhitespace
  let tok := cs.takeWhile (fun c => !c.isWhitespace)
  let rest := (cs.dropWhile (fun c => !c.isWhitespace)).dropWhile Char.isWhitespace
  if tok.isEmpty then []
  else if rest.isEmpty then [String.mk tok]
  else [String.mk tok, String.mk rest]

/-- Python's `str.upper()` on the ASCII command strings the engine uses. -/
def pyUpper (s : String) : String :=
  String.mk (s.toList.map Char.toUpper)

/-- Python's `str.isdigit()` on ASCII text: non-empty and all digits. -/
def pyIsDigit (s : String) : Bool :=
  !s.toList.isEmpty && s.toList.all Char.isDigit

/-- Python's `int(...)` on a string of digits. -/
def pyToNat (s : String) : Nat :=
  s.toList.foldl (fun n c => n * 10 + (c.toNat - 48)) 0

/-- Python `int(q)` truncates toward zero. -/
def pyInt (q : ℚ) : ℤ :=
  if q < 0 then -((-q).floor) else q.floor

/-- `AXARawStatus`: status codes as returned by the AXA Remote. -/
inductive AXARawStatus where
  | OK
  | UNLOCKED
  | STRONG_LOCKED
  | WEAK_LOCKED
  | DEVICE
  | VERSION
  | COMMAND_NOT_IMPLEMENTED
deriving DecidableEq, Repr

/-- The numeric value of each `AXARawStatus` member. -/
def AXARawStatus.code : AXARawStatus → Nat
  | .OK => 200
  | .UNLOCKED => 210
  | .STRONG_LOCKED => 211
  | .WEAK_LOCKED => 212
  | .DEVICE => 260
  | .VERSION => 261
  | .COMMAND_NOT_IMPLEMENTED => 502

/-- `AXARawStatus(n)`: the enum member with value `n`, if any
(`ValueError` otherwise, modelled as `none`). -/
def rawOfCode (n : Nat) : Option AXARawStatus :=
  if n = 200 then some .OK
  else if n = 210 then some .UNLOCKED
  else if n = 211 then some .STRONG_LOCKED
  else if n = 212 then some .WEAK_LOCKED
  else if n = 260 then some .DEVICE
  else if n = 261 then some .VERSION
  else if n = 502 then some .COMMAND_NOT_IMPLEMENTED
  else none

/-- `AXAStatus`: the semantic motion state maintained by the engine. -/
inductive AXAStatus where
  | STOPPED
  | LOCKED
  | UNLOCKING
  | OPENING
  | OPEN
  | CLOSING
  | LOCKING
deriving DecidableEq, Repr

/-- The first component of `AXARemote._split_response`'s result: either a
recognised `AXARawStatus`, the raw leading token when it is not a known
numeric code, or Python `None`. -/
inductive RespCode where
  | raw (r : AXARawStatus)
  | str (s : String)
  | noCode
deriving DecidableEq, Repr

/-- The exceptions the engine raises: `TooBusyError`, `EmptyResponseError`,
`InvallidResponseError` (sic, as in the source) and the `IndexError` that
`connect` can hit when parsing the VERSION response text. -/
inductive PyExc where
  | tooBusy (command : String)
  | emptyResponse (command : String)
  | invalidResponse (command : String) (response : String)
  | indexError
deriving DecidableEq, Repr

/-- The transport (`AXAConnection`): `is_open` state, whether an `open()`
attempt would succeed (`can_open` folds together a raising `open()` and one
returning `False`), the script of lines `readline` will deliver, and the
log of everything written. -/
structure AXAConn where
  is_open : Bool
  can_open : Bool
  incoming : List String
  written : List String
deriving DecidableEq, Repr

/-- The engine state: the instance attributes of class `AXARemote`. -/
structure AXARemote where
  connection : Option AXAConn
  connected : Bool
  busy : Bool
  device : Option String
  version : Option String
  time_unlock : ℚ
  time_open : ℚ
  time_close : ℚ
  time_lock : ℚ
  status : Option AXAStatus
  position : ℚ
  target_position : Option ℚ
  timestamp : Option ℚ
deriving DecidableEq, Repr

/-- `AXARemote._connect`: if a connection exists and is closed, try to open
it, write a blank line and reset the buffers (which drains pending input);
report whether an open connection is available afterwards. -/
def connectInner (conn : Option AXAConn) : Bool × Option AXAConn :=
  match conn with
  | none => (false, none)
  | some c =>
    if c.is_open then (true, some c)
    else if c.can_open then
      (true, some { c with is_open := true, written := c.written ++ ["\r\n"], incoming := [] })
    else (false, some c)

/-- The read loop of `AXARemote._send_command` (lines 279–314): tolerate
blank lines up to a bounded count, demand the command echo first, then
return the next non-blank line.  `cmd` is the already-uppercased command.
When the script is exhausted every further `readline` yields the empty
string, so the blank counter reaches its bound and `EmptyResponseError`
results; returning it directly here is the same outcome. -/
def echoLoop (cmd : String) : List String → Nat → Bool → Except PyExc String × List String
  | lines, emptyCount, echoReceived =>
    if emptyCount > 5 then (.error (.emptyResponse cmd), lines)
    else
      match lines with
      | [] => (.error (.emptyResponse cmd), [])
      | l :: rest =>
        let r := pyStrip l
        if r = "" then echoLoop cmd rest (emptyCount + 1) echoReceived
        else if echoReceived = false ∧ r = cmd then echoLoop cmd rest 0 true
        else if echoReceived = false then (.error (.invalidResponse cmd r), rest)
        else (.ok r, rest)

/-- The outcome of `_send_command`: the returned value (or raised
exception) and the new values of the fields it touches. -/
structure SendOut where
  result : Except PyExc (Option String)
  busy : Bool
  connected : Bool
  connection : Option AXAConn
deriving Repr

/-- `AXARemote._send_command` on the fields it reads and writes.  The
offline path returns `None` with `connected := false`; the busy path raises
`TooBusyError` with the original-case command (the spin wait cannot be
released within a single-threaded run, so the 1-second timeout always
elapses); otherwise the command is uppercased, written, and the echo loop
runs, with `busy` cleared on every exit path of the `try` block. -/
def sendCommandCore (busy connected : Bool) (conn : Option AXAConn) (cmd : String) : SendOut :=
  match connectInner conn with
  | (false, conn') => ⟨.ok none, busy, false, conn'⟩
  | (true, conn') =>
    if busy then ⟨.error (.tooBusy cmd), busy, connected, conn'⟩
    else
      match conn' with
      | none => ⟨.ok none, busy, false, none⟩
      | some c =>
        let cmdU := pyUpper cmd
        let c := { c with written := c.written ++ [cmdU ++ "\r\n"] }
        match echoLoop cmdU c.incoming 0 false with
        | (.ok resp, leftover) =>
          ⟨.ok (some resp), false, connected, some { c with incoming := leftover }⟩
        | (.error (.emptyResponse cm), _) =>
          -- before raising, the code writes a blank line and resets the buffers
          ⟨.error (.emptyResponse cm), false, connected,
            some { c with written := c.written ++ ["\r\n"], incoming := [] }⟩
        | (.error e, leftover) =>
          ⟨.error e, false, connected, some { c with incoming := leftover }⟩

/-- `AXARemote._send_command` as a state transformer. -/
def sendCommand (s : AXARemote) (cmd : String) : Except PyExc (Option String) × AXARemote :=
  let o := sendCommandCore s.busy s.connected s.connection cmd
  (o.result, { s with busy := o.busy, connected := o.connected, connection := o.connection })

/-- `AXARemote._split_response`: split on the first whitespace run; map a
numeric leading token to `AXARawStatus`, leaving the token in place when
the numeric code is unknown (the `ValueError` is caught and logged); a
response without two fields yields `(None, response)`. -/
def splitResponse (response : Option String) : RespCode × Option String :=
  match response with
  | none => (.noCode, none)
  | some r =>
    match pySplitMax1 r with
    | [tok, text] =>
      if pyIsDigit tok then
        match rawOfCode (pyToNat tok) with
        | some rs => (.raw rs, some text)
        | none => (.str tok, some text)
      else (.str tok, some text)
    | _ => (.noCode, some r)

/-- `AXARemote.raw_status`: send `STATUS` and split the response. -/
def rawStatus (s : AXARemote) : Except PyExc (RespCode × Option String) × AXARemote :=
  ((sendCommand s "STATUS").1.map splitResponse, (sendCommand s "STATUS").2)

/-- `AXARemote._open` (lines 411–429): send `OPEN`; on `OK`, start the
UNLOCKING phase from LOCKED, or resume OPENING from STOPPED with the phase
clock backdated so interpolation is continuous. -/
def openInner (now : ℚ) (s : AXARemote) : Except PyExc Bool × AXARemote :=
  let p := sendCommand s "OPEN"
  match p.1 with
  | .error e => (.error e, p.2)
  | .ok resp =>
    if (splitResponse resp).1 = .raw .OK then
      if p.2.status = some .LOCKED then
        (.ok true, { p.2 with timestamp := some now, status := some .UNLOCKING })
      else if p.2.status = some .STOPPED then
        (.ok true, { p.2 with
          timestamp := some (now - (p.2.time_unlock + p.2.time_open * (p.2.position / 100))),
          status := some .OPENING })
      else (.ok true, p.2)
    else (.ok false, p.2)

/-- `AXARemote.open`: set the target to fully open and send the command. -/
def openCmd (now : ℚ) (s : AXARemote) : Except PyExc Bool × AXARemote :=
  openInner now { s with target_position := some 100 }

/-- `AXARemote._close` (lines 465–484): send `CLOSE`; on `OK`, start the
CLOSING phase from OPEN, or resume it from STOPPED with a backdated clock. -/
def closeInner (now : ℚ) (s : AXARemote) : Except PyExc Bool × AXARemote :=
  let p := sendCommand s "CLOSE"
  match p.1 with
  | .error e => (.error e, p.2)
  | .ok resp =>
    if (splitResponse resp).1 = .raw .OK then
      if p.2.status = some .OPEN then
        (.ok true, { p.2 with timestamp := some now, status := some .CLOSING })
      else if p.2.status = some .STOPPED then
        (.ok true, { p.2 with
          timestamp := some (now - p.2.time_close * ((100 - p.2.position) / 100)),
          status := some .CLOSING })
      else (.ok true, p.2)
    else (.ok false, p.2)

/-- `AXARemote.close`: set the target to fully closed and send the command. -/
def closeCmd (now : ℚ) (s : AXARemote) : Except PyExc Bool × AXARemote :=
  closeInner now { s with target_position := some 0 }

/-- `AXARemote._stop` (lines 438–456): while LOCKING, succeed silently
without sending anything; otherwise send `STOP` and, on `OK`, stop any
OPENING/CLOSING phase and clear the target. -/
def stopInner (s : AXARemote) : Except PyExc Bool × AXARemote :=
  if s.status = some .LOCKING then (.ok true, s)
  else
    let p := sendCommand s "STOP"
    match p.1 with
    | .error e => (.error e, p.2)
    | .ok resp =>
      if (splitResponse resp).1 = .raw .OK then
        if p.2.status = some .OPENING ∨ p.2.status = some .CLOSING then
          (.ok true, { p.2 with status := some .STOPPED, target_position := none })
        else (.ok true, { p.2 with target_position := none })
      else (.ok false, p.2)

/-- `AXARemote.stop`: remember the current position as the target, then
send the stop. -/
def stopCmd (s : AXARemote) : Except PyExc Bool × AXARemote :=
  stopInner { s with target_position := some s.position }

/-- The moving-phase part of `AXARemote._update` (lines 366–409): the
sequential `if` chain over UNLOCKING/OPENING/CLOSING/LOCKING (a phase
completing falls through into the next branch in the same call), followed
by the target-overshoot check that issues a `STOP`. -/
def updateMoving (now : ℚ) (s : AXARemote) : AXARemote :=
  let t := now - s.timestamp.getD 0
  let s1 :=
    if s.status = some .UNLOCKING then
      if t < s.time_unlock then { s with position := t / s.time_unlock * 100 }
      else { s with status := some .OPENING }
    else s
  let s2 :=
    if s1.status = some .OPENING then
      let s' := { s1 with position := (t - s1.time_unlock) / s1.time_open * 100 }
      if t > s1.time_unlock + s1.time_open then
        { s' with status := some .OPEN, position := 100 }
      else s'
    else s1
  let s3 :=
    if s2.status = some .CLOSING then
      if t < s2.time_close then { s2 with position := 100 - t / s2.time_close * 100 }
      else { s2 with status := some .LOCKING, target_position := none }
    else s2
  let s4 :=
    if s3.status = some .LOCKING then
      let s' := { s3 with position := 100 - (t - s3.time_close) / s3.time_lock * 100 }
      if t > s3.time_close + s3.time_lock then
        { s' with status := some .LOCKED, position := 0 }
      else s'
    else s3
  match s4.target_position with
  | none => s4
  | some tp =>
    if (s4.status = some .OPENING ∧ s4.position > tp) ∨
       (s4.status = some .CLOSING ∧ s4.position < tp) then
      (stopInner s4).2
    else s4

/-- `AXARemote._update` (lines 343–409): in an idle state, dispatch an
`OPEN`/`CLOSE` toward a pending target (communication errors are caught
and logged); in a moving state, recompute the position from elapsed time. -/
def update (now : ℚ) (s : AXARemote) : AXARemote :=
  if s.status = some .LOCKED ∨ s.status = some .STOPPED ∨ s.status = some .OPEN then
    match s.target_position with
    | none => s
    | some tp =>
      if s.position < tp then (openInner now s).2
      else if s.position > tp then (closeInner now s).2
      else s
  else updateMoving now s

/-- `AXARemote.status`: run the estimator, then report `[status, position]`. -/
def statusQ (now : ℚ) (s : AXARemote) : (Option AXAStatus × ℚ) × AXARemote :=
  let s' := update now s
  ((s'.status, s'.position), s')

/-- `AXARemote.position`: the last computed position. -/
def positionQ (s : AXARemote) : ℚ :=
  s.position

/-- `AXARemote.restore_position` (lines 162–178); its `assert` restricts
the argument to `[0, 100]`. -/
def restore_position (position : ℚ) (s : AXARemote) : AXARemote :=
  let s := { s with position := position }
  if s.position = 0 then { s with status := some .LOCKED }
  else if s.position = 100 then { s with status := some .OPEN }
  else { s with status := some .STOPPED }

/-- `AXARemote.set_position` (lines 493–513); its `assert` restricts the
argument to `[0, 100]`.  Exceptions raised by the underlying sends
propagate to the caller. -/
def set_position (now : ℚ) (target : ℚ) (s : AXARemote) : Except PyExc Unit × AXARemote :=
  if pyInt target = 0 then
    let p := closeCmd now s
    (p.1.map fun _ => (), p.2)
  else if pyInt target = 100 then
    let p := openCmd now s
    (p.1.map fun _ => (), p.2)
  else if pyInt s.position = pyInt target then (.ok (), s)
  else if s.position < target then
    let p := openInner now { s with target_position := some target }
    (p.1.map fun _ => (), p.2)
  else if s.position > target then
    let p := closeInner now { s with target_position := some target }
    (p.1.map fun _ => (), p.2)
  else (.ok (), s)

/-- `AXARemote.disconnect`: close and discard the transport; always
succeeds. -/
def disconnect (s : AXARemote) : Bool × AXARemote :=
  (true, { s with connection := none })

/-- `AXARemote.connect` (lines 198–244): ensure the transport is open; on
the first successful connect run the `DEVICE`/`VERSION` identification and
initialise `status`/`position` from the raw lock state.  Protocol errors
(`AXARemoteError`) are caught and yield `False`; the `IndexError` from
`response[1].split(maxsplit=1)[1]` on a malformed VERSION text propagates. -/
def connect (s : AXARemote) : Except PyExc Bool × AXARemote :=
  match connectInner s.connection with
  | (false, conn') => (.ok false, { s with connection := conn' })
  | (true, conn') =>
    let s := { s with connection := conn' }
    if s.version.isSome then (.ok true, s)
    else
      let p := sendCommand s "DEVICE"
      match p.1 with
      | .error _ => (.ok false, p.2)
      | .ok resp =>
        let (code, text) := splitResponse resp
        if code ≠ .raw .DEVICE then (.ok false, p.2)
        else
          let s := { p.2 with device := text }
          let p2 := sendCommand s "VERSION"
          match p2.1 with
          | .error _ => (.ok false, p2.2)
          | .ok resp2 =>
            let (code2, text2) := splitResponse resp2
            if code2 ≠ .raw .VERSION then (.ok false, p2.2)
            else
              match pySplitMax1 (text2.getD "") with
              | [_, ver] =>
                let s := { p2.2 with version := some ver }
                let p3 := rawStatus s
                match p3.1 with
                | .error _ => (.ok false, p3.2)
                | .ok (code3, _) =>
                  if code3 = .raw .STRONG_LOCKED then
                    (.ok true, { p3.2 with status := some .LOCKED, position := 0 })
                  else if code3 = .raw .WEAK_LOCKED then
                    -- currently handled as if it were Strong Locked
                    (.ok true, { p3.2 with status := some .LOCKED, position := 0 })
                  else if code3 = .raw .UNLOCKED then
                    (.ok true, { p3.2 with status := some .OPEN, position := 100 })
                  else (.ok false, p3.2)
              | _ => (.error .indexError, p2.2)

/-- Is the raw code one of the two lock states? -/
def isLockedCode (c : RespCode) : Prop :=
  c = .raw .STRONG_LOCKED ∨ c = .raw .WEAK_LOCKED

instance (c : RespCode) : Decidable (isLockedCode c) := by
  unfold isLockedCode; infer_instance

/-- `AXARemote.sync_status` (lines 538–634): reconcile the presumed phase
with the device's raw lock state, then return a fresh status query.  All
engine-raised exceptions are caught inside it except the `IndexError`
from `connect`. -/
def sync_status (now : ℚ) (s : AXARemote) : Except PyExc (Option AXAStatus × ℚ) × AXARemote :=
  match connect s with
  | (.error e, s') => (.error e, s')
  | (.ok false, s') =>
    let s' := { s' with connected := false }
    (.ok (statusQ now s').1, (statusQ now s').2)
  | (.ok true, s') =>
    let s' := { s' with connected := true }
    match rawStatus s' with
    | (.error _, s'') => (.ok (statusQ now s'').1, (statusQ now s'').2)
    | (.ok (code, _), s'') =>
      if code = .noCode then (.ok (statusQ now s'').1, (statusQ now s'').2)
      else
        let s3 :=
          match s''.target_position with
          | none =>
            if s''.status = some .LOCKED ∧ code = .raw .UNLOCKED then
              { s'' with timestamp := some (now - s''.time_unlock),
                         status := some .OPENING, position := 0 }
            else if s''.status = some .OPEN ∧ isLockedCode code then
              { s'' with timestamp := some (now - s''.time_close),
                         status := some .LOCKING, position := 0 }
            else s''
          | some _ =>
            if isLockedCode code ∧
               (s''.status = some .UNLOCKING ∨ s''.status = some .LOCKING) then
              { s'' with position := 0 }
            else if isLockedCode code ∧ s''.status = some .CLOSING then
              { s'' with timestamp := some (now - s''.time_close),
                         status := some .LOCKING, position := 0,
                         target_position := none }
            else if code = .raw .UNLOCKED ∧ s''.status = some .UNLOCKING then
              -- note: the phase origin timestamp is NOT backdated here
              { s'' with status := some .OPENING, position := 0 }
            else if isLockedCode code ∧
                ¬(s''.status = some .LOCKED ∨ s''.status = some .UNLOCKING ∨
                  s''.status = some .CLOSING ∨ s''.status = some .LOCKING) then
              { s'' with status := some .LOCKED, position := 0 }
            else if code = .raw .UNLOCKED ∧ s''.status = some .LOCKED then
              { s'' with status := some .OPEN, position := 100 }
            else s''
        (.ok (statusQ now s3).1, (statusQ now s3).2)

/-- The polling loop of `AXARemote.calibrate` (lines 657–671): poll
`STATUS` until the device reports locked, recording the elapsed time as
the new `time_open`; give up past the 120 s watchdog.  `polls` is the list
of wall-clock readings at the successive iterations (the Python loop polls
until one of the two exits fires; a finite poll budget models any
terminating run). -/
def calLoop (start : ℚ) : List ℚ → AXARemote → Except PyExc (Option ℚ) × AXARemote
  | [], s => (.ok none, s)
  | t :: rest, s =>
    let p := rawStatus s
    match p.1 with
    | .error _ => calLoop start rest p.2
    | .ok (code, _) =>
      if isLockedCode code then
        (.ok (some (t - start)), { p.2 with time_open := t - start })
      else if t - start > 120 then (.ok none, p.2)
      else calLoop start rest p.2

/-- `AXARemote.calibrate` (lines 651–676): drive the device closed, then
run the polling loop; a failed `close()` or an exhausted watchdog yields
`None` ("Failed to calibrate"). -/
def calibrate (now0 : ℚ) (polls : List ℚ) (s : AXARemote) : Except PyExc (Option ℚ) × AXARemote :=
  let p := closeCmd now0 s
  match p.1 with
  | .error e => (.error e, p.2)
  | .ok true => calLoop now0 polls p.2
  | .ok false => (.ok none, p.2)

/-! ## Concrete engine states used when settling the claims -/

/-- An open, healthy transport with an empty script. -/
def baseConn : AXAConn :=
  { is_open := true, can_open := true, incoming := [], written := [] }

/-- A connected, initialised engine at rest (LOCKED, fully closed) with the
default motion profile of the class attributes
(`time_unlock=5, time_open=42, time_close=42, time_lock=16`). -/
def baseState : AXARemote :=
  { connection := some baseConn, connected := true, busy := false,
    device := some "AXA Remote", version := some "2.0",
    time_unlock := 5, time_open := 42, time_close := 42, time_lock := 16,
    status := some .LOCKED, position := 0, target_position := none, timestamp := none }

/-- Transport script for the C1 scenario: the device acknowledges one
`OPEN` and one `CLOSE`. -/
def c1Conn : AXAConn :=
  { baseConn with incoming := ["OPEN", "200 OK", "CLOSE", "200 OK"] }

/-- Start state for the C1 scenario: LOCKED at position 0. -/
def c1Start : AXARemote :=
  { baseState with connection := some c1Conn }

/-- The C1 engine just after `open()` was called at time 0. -/
def c1AfterOpen : AXARemote := (openCmd 0 c1Start).2

/-- Witness state for C2: UNLOCKING with phase origin 0. -/
def c2Wit : AXARemote :=
  { baseState with status := some .UNLOCKING, timestamp := some 0 }

/-- Transport script for the C3 first-connect scenario: identification
succeeds, then `STATUS` answers with the line `l`. -/
def c3Conn (l : String) : AXAConn :=
  { baseConn with
    incoming := ["DEVICE", "260 AXA Remote 2.0", "VERSION", "261 Firmware v2.0", "STATUS", l] }

/-- A fresh, never-initialised engine about to make its first connect. -/
def c3Start (l : String) : AXARemote :=
  { connection := some (c3Conn l), connected := false, busy := false,
    device := none, version := none,
    time_unlock := 5, time_open := 42, time_close := 42, time_lock := 16,
    status := none, position := 0, target_position := none, timestamp := none }

/-- The C3 transport after the DEVICE exchange. -/
def c3Conn1 (l : String) : AXAConn :=
  ⟨true, true, ["VERSION", "261 Firmware v2.0", "STATUS", l], ["DEVICE\r\n"]⟩

/-- The C3 engine after the DEVICE identification. -/
def c3s1 (l : String) : AXARemote :=
  { c3Start l with connection := some (c3Conn1 l), device := some "AXA Remote 2.0" }

/-- The C3 transport after the VERSION exchange. -/
def c3Conn2 (l : String) : AXAConn :=
  ⟨true, true, ["STATUS", l], ["DEVICE\r\n", "VERSION\r\n"]⟩

/-- The C3 engine after the VERSION identification. -/
def c3s2 (l : String) : AXARemote :=
  { c3s1 l with connection := some (c3Conn2 l), version := some "v2.0" }

/-- The C3 transport after all three exchanges. -/
def c3Conn3 : AXAConn :=
  ⟨true, true, [], ["DEVICE\r\n", "VERSION\r\n", "STATUS\r\n"]⟩

/-- The C3 engine after identification and the STATUS poll, before the
raw-state initialisation. -/
def c3s3 (l : String) : AXARemote :=
  { c3s2 l with connection := some c3Conn3 }

/-- Witness transport for C4: the device answers `"FOO"`. -/
def c4Conn : AXAConn := { baseConn with incoming := ["FOO"] }

/-- Witness state for C4. -/
def c4State : AXARemote :=
  { baseState with connection := some c4Conn }

/-- State for C5: a command round-trip is already in flight. -/
def c5Busy : AXARemote := { baseState with busy := true }

/-- State for C7: fully open; the device will acknowledge `CLOSE` and then
report Strong Locked on the first `STATUS` poll. -/
def c7Conn : AXAConn :=
  { baseConn with incoming := ["CLOSE", "200 OK", "STATUS", "211 Strong Locked"] }

/-- See `c7Conn`. -/
def c7State : AXARemote :=
  { baseState with status := some .OPEN, position := 100, connection := some c7Conn }

/-- State for C8: LOCKED at 0; the device will acknowledge `OPEN` and then
report UnLocked on the next `STATUS` poll. -/
def c8Conn : AXAConn :=
  { baseConn with incoming := ["OPEN", "200 OK", "STATUS", "210 Unlocked"] }

/-- See `c8Conn`. -/
def c8State : AXARemote :=
  { baseState with connection := some c8Conn }

/-- C8 after the public call `set_position(50.0)` at time 0: UNLOCKING with
a pending target of 50. -/
def c8Mid : AXARemote := (set_position 0 50 c8State).2

/-- The C8 transport after both exchanges. -/
def c8ConnAfter : AXAConn :=
  { is_open := true, can_open := true, incoming := [],
    written := ["OPEN\r\n", "STATUS\r\n"] }

/-- The C8 engine after `sync_status`'s reconciliation branch for raw
UNLOCKED during presumed UNLOCKING with a pending target: the status is
flipped to OPENING and the position clamped to 0, but the phase-origin
timestamp is left at 0 (not backdated by `time_unlock`). -/
def c8s3 : AXARemote :=
  { baseState with
    connection := some c8ConnAfter
    status := some .OPENING
    position := 0
    target_position := some 50
    timestamp := some 0 }

/-- State for C9: LOCKING (the closing phase completed at clock −42, so the
phase is `time_close` old), at interpolated position `p`; the device will
acknowledge one `OPEN`. -/
def c9Conn : AXAConn := { baseConn with incoming := ["OPEN", "200 OK"] }

/-- See `c9Conn`. -/
def c9State (p : ℚ) : AXARemote :=
  { baseState with
    status := some .LOCKING
    position := p
    timestamp := some (-42)
    connection := some c9Conn }

/-- Witness state for C10: an engine whose transport was discarded. -/
def c10State : AXARemote := { baseState with connection := none }

/-- The C1 engine after the status query at `t1` that found it OPEN:
transport has consumed the OPEN exchange. -/
def c1s2Conn : AXAConn :=
  { is_open := true, can_open := true, incoming := ["CLOSE", "200 OK"], written := ["OPEN\r\n"] }

/-- The C1 engine as an explicit record just after `open()` at time 0:
UNLOCKING with phase origin 0 and target 100. -/
def c1s1 : AXARemote :=
  { baseState with
    connection := some c1s2Conn
    status := some .UNLOCKING
    target_position := some 100
    timestamp := some 0 }

/-- The C1 engine state after `open()` at 0 and a status query late enough
to complete the opening cycle. -/
def c1s2 : AXARemote :=
  { baseState with
    connection := some c1s2Conn
    status := some .OPEN
    position := 100
    target_position := some 100
    timestamp := some 0 }

/-- The C1 transport after both exchanges. -/
def c1s3Conn : AXAConn :=
  { is_open := true, can_open := true, incoming := [], written := ["OPEN\r\n", "CLOSE\r\n"] }

/-- The C1 engine just after `close()` at time `t1`. -/
def c1s3 (t1 : ℚ) : AXARemote :=
  { baseState with
    connection := some c1s3Conn
    status := some .CLOSING
    position := 100
    target_position := some 0
    timestamp := some t1 }

/-- The C1 engine after the status query 42 s after `close()`: LOCKING. -/
def c1s4 (t1 : ℚ) : AXARemote :=
  { c1s3 t1 with status := some .LOCKING, target_position := none }

/-! ## Phase lemmas for the estimator -/

/-- In a non-idle state `update` defers to the moving-phase chain. -/
theorem update_moving_of_not_idle (now : ℚ) (s : AXARemote)
    (h : ¬(s.status = some .LOCKED ∨ s.status = some .STOPPED ∨ s.status = some .OPEN)) :
    update now s = updateMoving now s := by
  unfold update; rw [if_neg h]

/-- UNLOCKING before the phase duration elapses: linear interpolation,
no phase change. -/
theorem update_unlocking_early (now ts : ℚ) (s : AXARemote)
    (hst : s.status = some .UNLOCKING) (hts : s.timestamp = some ts)
    (ht : now - ts < s.time_unlock) :
    update now s = { s with position := (now - ts) / s.time_unlock * 100 } := by
  obtain ⟨conn, cd, bsy, dev, ver, tU, tO, tC, tL, st, pos, tg, tst⟩ := s
  dsimp only at hst hts ht ⊢
  subst hst; subst hts
  rw [update_moving_of_not_idle _ _ (by simp)]
  cases tg <;> simp [updateMoving, ht]

/-- UNLOCKING exactly at the phase duration: the phase becomes OPENING and
the position is the OPENING formula's value at its origin, 0. -/
theorem update_unlocking_boundary (now ts : ℚ) (s : AXARemote)
    (hst : s.status = some .UNLOCKING) (hts : s.timestamp = some ts)
    (ht : now - ts = s.time_unlock) (hto : 0 ≤ s.time_open)
    (htg : s.target_position = none) :
    update now s = { s with status := some .OPENING, position := 0 } := by
  obtain ⟨conn, cd, bsy, dev, ver, tU, tO, tC, tL, st, pos, tg, tst⟩ := s
  dsimp only at hst hts ht hto htg ⊢
  subst hst; subst hts; subst htg
  have hnow : now = ts + tU := by linarith
  subst hnow
  rw [update_moving_of_not_idle _ _ (by simp)]
  simp [updateMoving, add_sub_cancel_left, lt_self_iff_false, add_lt_iff_neg_left, hto.not_lt]

/-- UNLOCKING with enough time elapsed to finish unlocking and opening:
the cycle completes at OPEN, position 100. -/
theorem update_unlocking_to_open (now ts : ℚ) (s : AXARemote)
    (hst : s.status = some .UNLOCKING) (hts : s.timestamp = some ts)
    (h1 : ¬(now - ts < s.time_unlock)) (h2 : now - ts > s.time_unlock + s.time_open) :
    update now s = { s with status := some .OPEN, position := 100 } := by
  obtain ⟨conn, cd, bsy, dev, ver, tU, tO, tC, tL, st, pos, tg, tst⟩ := s
  dsimp only at hst hts h1 h2 ⊢
  subst hst; subst hts
  rw [update_moving_of_not_idle _ _ (by simp)]
  cases tg <;> simp [updateMoving, h1, h2]

/-- CLOSING queried exactly `time_close` after the phase start: the phase
becomes LOCKING, the pending target is dropped, and the LOCKING formula
puts the position back at 100. -/
theorem update_closing_at_close_time (now ts : ℚ) (s : AXARemote)
    (hst : s.status = some .CLOSING) (hts : s.timestamp = some ts)
    (ht : now - ts = s.time_close) (htl : 0 ≤ s.time_lock) :
    update now s = { s with status := some .LOCKING, position := 100, target_position := none } := by
  obtain ⟨conn, cd, bsy, dev, ver, tU, tO, tC, tL, st, pos, tg, tst⟩ := s
  dsimp only at hst hts ht htl ⊢
  subst hst; subst hts
  have hnow : now = ts + tC := by linarith
  subst hnow
  rw [update_moving_of_not_idle _ _ (by simp)]
  cases tg <;>
    simp [updateMoving, add_sub_cancel_left, lt_self_iff_false, add_lt_iff_neg_left, htl.not_lt]

/-- LOCKING with strictly more than `time_close + time_lock` elapsed:
LOCKED at position 0. -/
theorem update_locking_to_locked (now ts : ℚ) (s : AXARemote)
    (hst : s.status = some .LOCKING) (hts : s.timestamp = some ts)
    (h2 : now - ts > s.time_close + s.time_lock) :
    update now s = { s with status := some .LOCKED, position := 0 } := by
  obtain ⟨conn, cd, bsy, dev, ver, tU, tO, tC, tL, st, pos, tg, tst⟩ := s
  dsimp only at hst hts h2 ⊢
  subst hst; subst hts
  rw [update_moving_of_not_idle _ _ (by simp)]
  cases tg <;> simp [updateMoving, h2]

/-- UNLOCKING with the unlock duration elapsed but not past the end of the
opening phase, with a pending target of 100: the OPENING interpolation
formula applies. -/
theorem update_unlocking_opening_mid (now ts : ℚ) (s : AXARemote)
    (hst : s.status = some .UNLOCKING) (hts : s.timestamp = some ts)
    (h1 : ¬(now - ts < s.time_unlock)) (h2 : ¬(now - ts > s.time_unlock + s.time_open))
    (htg : s.target_position = some 100)
    (hle : (now - ts - s.time_unlock) / s.time_open * 100 ≤ 100) :
    update now s = { s with status := some .OPENING, position := (now - ts - s.time_unlock) / s.time_open * 100 } := by
  obtain ⟨conn, cd, bsy, dev, ver, tU, tO, tC, tL, st, pos, tg, tst⟩ := s
  dsimp only at hst hts h1 h2 htg hle ⊢
  subst hst; subst hts; subst htg
  rw [update_moving_of_not_idle _ _ (by simp)]
  simp [updateMoving, h1, h2, hle.not_lt]

/-- LOCKING before the locking duration has fully elapsed, with no pending
target: the LOCKING interpolation formula applies. -/
theorem update_locking_mid (now ts : ℚ) (s : AXARemote)
    (hst : s.status = some .LOCKING) (hts : s.timestamp = some ts)
    (h2 : ¬(now - ts > s.time_close + s.time_lock))
    (htg : s.target_position = none) :
    update now s = { s with position := 100 - (now - ts - s.time_close) / s.time_lock * 100 } := by
  obtain ⟨conn, cd, bsy, dev, ver, tU, tO, tC, tL, st, pos, tg, tst⟩ := s
  dsimp only at hst hts h2 htg ⊢
  subst hst; subst hts; subst htg
  rw [update_moving_of_not_idle _ _ (by simp)]
  simp [updateMoving, h2]

/-- An idle LOCKED state with a pending target above the current position
dispatches `_open` on the next query. -/
theorem update_idle_locked_dispatch (now : ℚ) (s : AXARemote) (tp : ℚ)
    (hst : s.status = some .LOCKED) (htg : s.target_position = some tp)
    (hlt : s.position < tp) :
    update now s = (openInner now s).2 := by
  unfold update
  rw [if_pos (Or.inl hst), htg]
  simp [hlt]

/-! ## C2 -/

/-- **C2**: while the status is UNLOCKING, a status query at elapsed time
`t ∈ [0, time_unlock)` since the phase start computes position
`100*t/time_unlock` (exactly, hence within ±1 unit) and stays UNLOCKING;
at `t = time_unlock` exactly, the phase becomes OPENING and the position
is the OPENING formula's value at its origin, 0. -/
theorem C2_unlocking_estimate (s : AXARemote) (ts t : ℚ)
    (hst : s.status = some AXAStatus.UNLOCKING) (hts : s.timestamp = some ts)
    (htg : s.target_position = none) (hto : 0 ≤ s.time_open) :
    (t < s.time_unlock →
      (update (ts + t) s).status = some AXAStatus.UNLOCKING ∧
      (update (ts + t) s).position = 100 * t / s.time_unlock) ∧
    (t = s.time_unlock →
      (update (ts + t) s).status = some AXAStatus.OPENING ∧
      (update (ts + t) s).position = 0) := by
  constructor
  · intro hlt
    have h := update_unlocking_early (ts + t) ts s hst hts
      (by rw [show ts + t - ts = t by ring]; exact hlt)
    rw [h]
    refine ⟨hst, ?_⟩
    show (ts + t - ts) / s.time_unlock * 100 = 100 * t / s.time_unlock
    ring
  · intro heq
    have h := update_unlocking_boundary (ts + t) ts s hst hts
      (by rw [show ts + t - ts = t by ring]; exact heq) hto htg
    rw [h]
    exact ⟨rfl, rfl⟩

/-- Witness for C2 at the default profile, phase origin 0 and `t = 2`:
position `100*2/5 = 40`, still UNLOCKING. -/
theorem C2_unlocking_estimate_witness :
    (update 2 c2Wit).status = some AXAStatus.UNLOCKING ∧
    (update 2 c2Wit).position = 40 := by
  have h := (C2_unlocking_estimate c2Wit 0 2 rfl rfl rfl (by decide)).1
    (by show (2:ℚ) < 5; norm_num)
  rw [show (0:ℚ) + 2 = 2 by norm_num] at h
  refine ⟨h.1, ?_⟩
  rw [h.2, show c2Wit.time_unlock = 5 from rfl]
  norm_num

/-! ## C1 -/

/-- Calling `open()` at time 0 on the C1 start state succeeds and yields
the explicit UNLOCKING record. -/
theorem c1_open_eq : openCmd 0 c1Start = (Except.ok true, c1s1) := by rfl

/-- A status query strictly after 47 s finds the C1 engine OPEN at 100. -/
theorem c1_query1 (t1 : ℚ) (h47 : 47 < t1) :
    statusQ t1 c1s1 = ((some AXAStatus.OPEN, 100), c1s2) := by
  have h := update_unlocking_to_open t1 0 c1s1 rfl rfl
    (show ¬(t1 - 0 < (5:ℚ)) by push_neg; linarith)
    (show t1 - 0 > (5:ℚ) + 42 by linarith)
  unfold statusQ
  rw [h]
  rfl

/-- `close()` at `t1` on the queried state succeeds and starts CLOSING. -/
theorem c1_close_eq (t1 : ℚ) : closeCmd t1 c1s2 = (Except.ok true, c1s3 t1) := by rfl

/-- A status query exactly 42 s after `close()` reports LOCKING at
position 100. -/
theorem c1_query2 (t1 : ℚ) :
    statusQ (t1 + 42) (c1s3 t1) = ((some AXAStatus.LOCKING, 100), c1s4 t1) := by
  have h := update_closing_at_close_time (t1 + 42) t1 (c1s3 t1) rfl rfl
    (show t1 + 42 - t1 = (42:ℚ) by ring)
    (show (0:ℚ) ≤ 16 by norm_num)
  unfold statusQ
  rw [h]
  rfl

/-- A status query strictly more than 16 s later reports LOCKED at 0. -/
theorem c1_query3 (t1 d : ℚ) (h16 : 16 < d) :
    (statusQ (t1 + 42 + d) (c1s4 t1)).1 = (some AXAStatus.LOCKED, 0) := by
  have h := update_locking_to_locked (t1 + 42 + d) t1 (c1s4 t1) rfl rfl
    (show t1 + 42 + d - t1 > (42:ℚ) + 16 by linarith)
  unfold statusQ
  rw [h]

/-- **C1, counterexample**: the code disagrees with the claim at its exact
boundaries.  With the default profile, `open()` at time 0 then a status
query at exactly 47 s reports OPENING (not OPEN); after a query at 47.5 s
(which does report OPEN/100), `close()` at 47.5 s and a query exactly 42 s
later report LOCKING at position 100 — not approximately 0 (not within 1
of it); and a query exactly 16 s after that still reports LOCKING, not
LOCKED. -/
theorem C1_counterexample :
    (statusQ 47 c1AfterOpen).1 = (some AXAStatus.OPENING, 100) ∧
    (statusQ (95/2) c1AfterOpen).1 = (some AXAStatus.OPEN, 100) ∧
    (closeCmd (95/2) (statusQ (95/2) c1AfterOpen).2).1 = .ok true ∧
    (statusQ (95/2 + 42) (closeCmd (95/2) (statusQ (95/2) c1AfterOpen).2).2).1 =
      (some AXAStatus.LOCKING, 100) ∧
    ¬((statusQ (95/2 + 42) (closeCmd (95/2) (statusQ (95/2) c1AfterOpen).2).2).1.2 ≤ 1) ∧
    (statusQ (95/2 + 42 + 16)
        (statusQ (95/2 + 42) (closeCmd (95/2) (statusQ (95/2) c1AfterOpen).2).2).2).1 =
      (some AXAStatus.LOCKING, 0) := by
  have h0 : c1AfterOpen = c1s1 := by rfl
  have hq1 := c1_query1 (95/2) (by norm_num)
  have hA := update_unlocking_opening_mid 47 0 c1s1 rfl rfl
    (show ¬((47:ℚ) - 0 < 5) by norm_num)
    (show ¬((47:ℚ) - 0 > 5 + 42) by norm_num) rfl
    (show ((47:ℚ) - 0 - 5) / 42 * 100 ≤ 100 by norm_num)
  refine ⟨?_, ?_, ?_, ?_, ?_, ?_⟩
  · rw [h0]
    unfold statusQ
    rw [hA]
    show (some AXAStatus.OPENING, ((47:ℚ) - 0 - 5) / 42 * 100) = (some AXAStatus.OPENING, 100)
    norm_num
  · rw [h0, hq1]
  · rw [h0, hq1]
    exact congrArg Prod.fst (c1_close_eq (95/2))
  · rw [h0, hq1]
    show (statusQ (95/2 + 42) (closeCmd (95/2) c1s2).2).1 = (some AXAStatus.LOCKING, 100)
    rw [c1_close_eq]
    rw [c1_query2 (95/2)]
  · rw [h0, hq1]
    show ¬((statusQ (95/2 + 42) (closeCmd (95/2) c1s2).2).1.2 ≤ 1)
    rw [c1_close_eq]
    show ¬((statusQ (95/2 + 42) (c1s3 (95/2))).1.2 ≤ 1)
    rw [c1_query2 (95/2)]
    norm_num
  · rw [h0, hq1]
    show (statusQ (95/2 + 42 + 16)
        (statusQ (95/2 + 42) (closeCmd (95/2) c1s2).2).2).1 = (some AXAStatus.LOCKING, 0)
    rw [c1_close_eq]
    show (statusQ (95/2 + 42 + 16) (statusQ (95/2 + 42) (c1s3 (95/2))).2).1 =
      (some AXAStatus.LOCKING, 0)
    rw [c1_query2 (95/2)]
    show (statusQ (95/2 + 42 + 16) (c1s4 (95/2))).1 = (some AXAStatus.LOCKING, 0)
    have h := update_locking_mid (95/2 + 42 + 16) (95/2) (c1s4 (95/2)) rfl rfl
      (show ¬((95:ℚ)/2 + 42 + 16 - 95/2 > 42 + 16) by norm_num) rfl
    unfold statusQ
    rw [h]
    show (some AXAStatus.LOCKING, 100 - ((95:ℚ)/2 + 42 + 16 - 95/2 - 42) / 16 * 100) =
      (some AXAStatus.LOCKING, 0)
    norm_num

/-- **C1, amended**: with the default profile, starting LOCKED/0.0:
`open()` succeeds; a status query strictly more than 47 s later reports
OPEN/100.0; `close()` then succeeds, and a status query exactly 42 s later
reports LOCKING at position 100.0 (the LOCKING phase interpolates from 100
back down to 0); a further query strictly more than 16 s after that
reports LOCKED/0.0. -/
theorem C1_amended (t1 d : ℚ) (h47 : 47 < t1) (h16 : 16 < d) :
    (openCmd 0 c1Start).1 = .ok true ∧
    (statusQ t1 c1AfterOpen).1 = (some AXAStatus.OPEN, 100) ∧
    (closeCmd t1 (statusQ t1 c1AfterOpen).2).1 = .ok true ∧
    (statusQ (t1 + 42) (closeCmd t1 (statusQ t1 c1AfterOpen).2).2).1 =
      (some AXAStatus.LOCKING, 100) ∧
    (statusQ (t1 + 42 + d)
        (statusQ (t1 + 42) (closeCmd t1 (statusQ t1 c1AfterOpen).2).2).2).1 =
      (some AXAStatus.LOCKED, 0) := by
  have h0 : c1AfterOpen = c1s1 := by rfl
  have hq1 := c1_query1 t1 h47
  refine ⟨congrArg Prod.fst c1_open_eq, ?_, ?_, ?_, ?_⟩
  · rw [h0, hq1]
  · rw [h0, hq1]
    exact congrArg Prod.fst (c1_close_eq t1)
  · rw [h0, hq1]
    show (statusQ (t1 + 42) (closeCmd t1 c1s2).2).1 = (some AXAStatus.LOCKING, 100)
    rw [c1_close_eq, c1_query2 t1]
  · rw [h0, hq1]
    show (statusQ (t1 + 42 + d) (statusQ (t1 + 42) (closeCmd t1 c1s2).2).2).1 =
      (some AXAStatus.LOCKED, 0)
    rw [c1_close_eq, c1_query2 t1]
    exact c1_query3 t1 d h16

/-- Witness for C1 amended at `t1 = 48`, `d = 17`. -/
theorem C1_amended_witness :
    (47:ℚ) < 48 ∧ (16:ℚ) < 17 ∧
    (statusQ 48 c1AfterOpen).1 = (some AXAStatus.OPEN, 100) ∧
    (statusQ (48 + 42 + 17)
        (statusQ (48 + 42) (closeCmd 48 (statusQ 48 c1AfterOpen).2).2).2).1 =
      (some AXAStatus.LOCKED, 0) := by
  have h := C1_amended 48 17 (by norm_num) (by norm_num)
  exact ⟨by norm_num, by norm_num, h.2.1, h.2.2.2.2⟩

/-! ## C4 -/

/-- A non-blank first line that differs from the expected echo makes the
read loop fail with `InvallidResponseError` carrying the command and the
stripped observed line. -/
theorem echoLoop_first_mismatch (cmd l : String) (rest : List String) (ec : Nat)
    (hec : ec ≤ 5) (hne : pyStrip l ≠ "") (hneq : pyStrip l ≠ cmd) :
    echoLoop cmd (l :: rest) ec false = (.error (.invalidResponse cmd (pyStrip l)), rest) := by
  have h5 : ¬(5 < ec) := by omega
  rw [echoLoop.eq_def]
  simp [h5, hne, hneq]

/-- Blank lines before the echo are skipped, as long as the blank counter
stays within its bound. -/
theorem echoLoop_skip_blanks (cmd : String) (bs : List String) (rest : List String) (ec : Nat)
    (hb : ∀ b ∈ bs, pyStrip b = "") (hlen : ec + bs.length ≤ 5) :
    echoLoop cmd (bs ++ rest) ec false = echoLoop cmd rest (ec + bs.length) false := by
  induction bs generalizing ec with
  | nil => simp
  | cons b bs ih =>
    have h5 : ¬(5 < ec) := by simp only [List.length_cons] at hlen; omega
    have hb1 : pyStrip b = "" := hb b (by simp)
    rw [List.cons_append]
    conv_lhs => rw [echoLoop.eq_def]
    simp only [h5, hb1, if_false, if_true, reduceIte]
    rw [ih (ec + 1) (fun x hx => hb x (List.mem_cons_of_mem _ hx))
      (by simp only [List.length_cons] at hlen; omega)]
    congr 1
    simp only [List.length_cons]
    omega

/-- **C4**: if the first non-blank line read after writing a command is not
the uppercased command verbatim, `_send_command` raises
`InvallidResponseError` carrying the (uppercased) command and the observed
line. -/
theorem C4_echo_mismatch (s : AXARemote) (c : AXAConn) (cmd : String)
    (bs rest : List String) (l : String)
    (hconn : s.connection = some c) (hopen : c.is_open = true) (hbusy : s.busy = false)
    (hinc : c.incoming = bs ++ l :: rest)
    (hb : ∀ b ∈ bs, pyStrip b = "") (hlen : bs.length ≤ 5)
    (hne : pyStrip l ≠ "") (hneq : pyStrip l ≠ pyUpper cmd) :
    (sendCommand s cmd).1 = .error (.invalidResponse (pyUpper cmd) (pyStrip l)) := by
  unfold sendCommand sendCommandCore connectInner
  rw [hconn]
  simp only [hopen, if_true, reduceIte, hbusy, if_false]
  simp only [hinc]
  rw [echoLoop_skip_blanks (pyUpper cmd) bs (l :: rest) 0 hb (by omega)]
  rw [echoLoop_first_mismatch (pyUpper cmd) l rest (0 + bs.length) (by omega) hne hneq]
  simp

/-- Witness for C4: sending `STATUS` while the device answers `"FOO"`
fails with `InvallidResponseError("STATUS", "FOO")`. -/
theorem C4_echo_mismatch_witness :
    (sendCommand c4State "STATUS").1 = .error (.invalidResponse "STATUS" "FOO") := by
  have h := C4_echo_mismatch c4State c4Conn "STATUS" [] [] "FOO" rfl rfl rfl rfl
    (by intro b hb; cases hb) (by simp) (by decide) (by decide)
  simpa using h

/-! ## C5 -/

/-- Whenever `_send_command` is entered with the busy flag clear, the flag
is clear again on every exit path. -/
theorem sendOut_busy_clear (busy connected : Bool) (conn : Option AXAConn) (cmd : String)
    (h : busy = false) : (sendCommandCore busy connected conn cmd).busy = false := by
  subst h
  unfold sendCommandCore connectInner
  rcases conn with _ | c
  · rfl
  · by_cases ho : c.is_open = true
    · simp only [ho, if_true, reduceIte, Bool.false_eq_true, if_false]
      rcases hE : echoLoop (pyUpper cmd)
          ({ c with written := c.written ++ [pyUpper cmd ++ "\r\n"] }).incoming 0 false
        with ⟨r, leftover⟩
      rcases r with e | rr
      · rcases e <;> simp [hE]
      · simp [hE]
    · by_cases hco : c.can_open = true
      · simp only [ho, hco, if_true, reduceIte, Bool.false_eq_true, if_false]
        rfl
      · simp [ho, hco]

/-- **C5, counterexample**: a send issued while the engine is busy exits by
raising `TooBusyError`, and on that exit path the busy flag is still true
(it belongs to the in-flight command), contradicting the claim that the
flag is false after every exit of `send`. -/
theorem C5_counterexample :
    (sendCommand c5Busy "STATUS").1 = .error (.tooBusy "STATUS") ∧
    (sendCommand c5Busy "STATUS").2.busy = true := by
  exact ⟨by rfl, by rfl⟩

/-- **C5, amended**: a send issued while another command is in flight (busy
set, transport open) fails with `TooBusyError` carrying the command after
the bounded 1-second wait, leaving the whole state — including the busy
flag — unchanged; and whenever send is entered with the busy flag clear,
the flag is clear on every exit path (success, empty response, echo
mismatch, offline). -/
theorem C5_amended (s : AXARemote) (cmd : String) :
    (s.busy = false → (sendCommand s cmd).2.busy = false) ∧
    (∀ c, s.connection = some c → c.is_open = true → s.busy = true →
      sendCommand s cmd = (.error (.tooBusy cmd), s)) := by
  constructor
  · intro hb
    exact sendOut_busy_clear s.busy s.connected s.connection cmd hb
  · intro c hconn ho hb
    obtain ⟨conn, cd, bsy, dev, ver, tU, tO, tC, tL, st, pos, tg, tst⟩ := s
    dsimp only at hconn hb ⊢
    subst hconn; subst hb
    simp [sendCommand, sendCommandCore, connectInner, ho]

/-- Witness for C5 amended: a clean send leaves busy clear; a send on the
busy engine fails with `TooBusyError("STATUS")` and leaves the state
untouched. -/
theorem C5_amended_witness :
    (sendCommand baseState "STATUS").2.busy = false ∧
    sendCommand c5Busy "STATUS" = (.error (.tooBusy "STATUS"), c5Busy) := by
  exact ⟨(C5_amended baseState "STATUS").1 rfl,
    (C5_amended c5Busy "STATUS").2 baseConn rfl rfl rfl⟩

/-! ## C6 -/

/-- **C6, counterexample**: an unknown numeric leading token does not pass
through as a `None` code; `_split_response` keeps the raw string token
(`"999"`) in the code position, with the text retained. -/
theorem C6_counterexample :
    splitResponse (some "999 hello") = (.str "999", some "hello") ∧
    (splitResponse (some "999 hello")).1 ≠ .noCode := by
  exact ⟨by rfl, by decide⟩

/-- **C6, amended**: splitting on the first whitespace run yields
`(code, text)`; a numeric leading token is mapped through `AXARawStatus`;
a numeric token matching no known code is retained as the raw string token
(not `None`); a non-numeric token is likewise retained; `(None, response)`
arises exactly when the response does not split into two fields. -/
theorem C6_split_behaviour (r tok text : String) :
    (pySplitMax1 r = [tok, text] → pyIsDigit tok = true → rawOfCode (pyToNat tok) = none →
      splitResponse (some r) = (.str tok, some text)) ∧
    (∀ rs, pySplitMax1 r = [tok, text] → pyIsDigit tok = true →
      rawOfCode (pyToNat tok) = some rs →
      splitResponse (some r) = (.raw rs, some text)) ∧
    (pySplitMax1 r = [tok, text] → pyIsDigit tok = false →
      splitResponse (some r) = (.str tok, some text)) ∧
    (pySplitMax1 r = [tok] → splitResponse (some r) = (.noCode, some r)) ∧
    (pySplitMax1 r = [] → splitResponse (some r) = (.noCode, some r)) := by
  refine ⟨?_, ?_, ?_, ?_, ?_⟩
  · intro h hd hr
    unfold splitResponse
    dsimp only
    rw [h]
    simp [hd, hr]
  · intro rs h hd hr
    unfold splitResponse
    dsimp only
    rw [h]
    simp [hd, hr]
  · intro h hd
    unfold splitResponse
    dsimp only
    rw [h]
    simp [hd]
  · intro h
    unfold splitResponse
    dsimp only
    rw [h]
  · intro h
    unfold splitResponse
    dsimp only
    rw [h]

/-- Witness for C6 amended: `"999 hello"` splits to the retained string
token, `"211 Strong Locked"` maps to the known code, `"banana"` does not
split and yields the `None` code. -/
theorem C6_split_behaviour_witness :
    splitResponse (some "999 hello") = (.str "999", some "hello") ∧
    splitResponse (some "211 Strong Locked") = (.raw .STRONG_LOCKED, some "Strong Locked") ∧
    splitResponse (some "banana") = (.noCode, some "banana") := by
  refine ⟨(C6_split_behaviour "999 hello" "999" "hello").1 (by decide) (by decide) (by decide),
    (C6_split_behaviour "211 Strong Locked" "211" "Strong Locked").2.1 .STRONG_LOCKED
      (by decide) (by decide) (by decide),
    (C6_split_behaviour "banana" "banana" "").2.2.2.1 (by decide)⟩

/-! ## C7 -/

/-- `_close` never touches the motion-profile durations. -/
theorem closeInner_times (now : ℚ) (s : AXARemote) :
    (closeInner now s).2.time_unlock = s.time_unlock ∧
    (closeInner now s).2.time_open = s.time_open ∧
    (closeInner now s).2.time_close = s.time_close ∧
    (closeInner now s).2.time_lock = s.time_lock := by
  unfold closeInner
  rcases h : (sendCommand s "CLOSE").1 with e | resp <;> simp only [h]
  · exact ⟨rfl, rfl, rfl, rfl⟩
  · split_ifs <;> exact ⟨rfl, rfl, rfl, rfl⟩

/-- `close()` never touches the motion-profile durations. -/
theorem closeCmd_times (now : ℚ) (s : AXARemote) :
    (closeCmd now s).2.time_unlock = s.time_unlock ∧
    (closeCmd now s).2.time_open = s.time_open ∧
    (closeCmd now s).2.time_close = s.time_close ∧
    (closeCmd now s).2.time_lock = s.time_lock := by
  unfold closeCmd
  exact closeInner_times now { s with target_position := some 0 }

/-- The calibration polling loop: the only profile field it can touch is
`time_open`, and it records the elapsed time there exactly when it
terminates successfully. -/
theorem calLoop_profile (start : ℚ) (polls : List ℚ) (s : AXARemote) :
    ((calLoop start polls s).2.time_unlock = s.time_unlock ∧
     (calLoop start polls s).2.time_close = s.time_close ∧
     (calLoop start polls s).2.time_lock = s.time_lock) ∧
    (∀ d, (calLoop start polls s).1 = .ok (some d) → (calLoop start polls s).2.time_open = d) ∧
    ((calLoop start polls s).1 = .ok none → (calLoop start polls s).2.time_open = s.time_open) := by
  induction polls generalizing s with
  | nil =>
    refine ⟨⟨rfl, rfl, rfl⟩, ?_, fun _ => rfl⟩
    intro d h
    exact absurd h (by simp [calLoop])
  | cons t rest ih =>
    unfold calLoop
    rcases h : (rawStatus s).1 with e | p <;> simp only [h]
    · exact ih (rawStatus s).2
    · obtain ⟨code, txt⟩ := p
      split_ifs with h1 h2
      · refine ⟨⟨rfl, rfl, rfl⟩, ?_, ?_⟩
        · intro d hd
          have hd' : some (t - start) = some d := by injection hd
          injection hd' with hd'
        · intro hh
          have hh' : some (t - start) = (none : Option ℚ) := by injection hh
          cases hh'
      · exact ⟨⟨rfl, rfl, rfl⟩, fun d hd => (by injection hd with hd; cases hd),
          fun _ => rfl⟩
      · exact ih (rawStatus s).2

/-- The calibration polling loop catches every protocol error and never
raises. -/
theorem calLoop_no_error (start : ℚ) (polls : List ℚ) (s : AXARemote) (e : PyExc) :
    (calLoop start polls s).1 ≠ .error e := by
  induction polls generalizing s with
  | nil => intro h; cases h
  | cons t rest ih =>
    unfold calLoop
    rcases h : (rawStatus s).1 with e' | p <;> simp only [h]
    · exact ih (rawStatus s).2
    · obtain ⟨code, txt⟩ := p
      split_ifs with h1 h2
      · intro hh; cases hh
      · intro hh; cases hh
      · exact ih (rawStatus s).2

/-- **C7, amended**: `calibrate` drives the device closed and polls
`STATUS` until the raw status reports locked, recording the elapsed time
as the new `time_open` only — `time_close` (and the other profile fields)
are never mutated; on failure (watchdog expiry, failed close, or a raised
protocol error on close) no motion-profile field at all is mutated. -/
theorem C7_calibrate_profile (now0 : ℚ) (polls : List ℚ) (s : AXARemote) :
    ((calibrate now0 polls s).2.time_unlock = s.time_unlock ∧
     (calibrate now0 polls s).2.time_close = s.time_close ∧
     (calibrate now0 polls s).2.time_lock = s.time_lock) ∧
    (∀ d, (calibrate now0 polls s).1 = .ok (some d) →
      (calibrate now0 polls s).2.time_open = d) ∧
    ((calibrate now0 polls s).1 = .ok none →
      (calibrate now0 polls s).2.time_open = s.time_open) ∧
    (∀ e, (calibrate now0 polls s).1 = .error e →
      (calibrate now0 polls s).2.time_open = s.time_open) := by
  obtain ⟨hcu, hco, hcc, hcl⟩ := closeCmd_times now0 s
  unfold calibrate
  rcases h : (closeCmd now0 s).1 with e | b <;> simp only [h]
  · exact ⟨⟨hcu, hcc, hcl⟩, fun d hd => (by cases hd), fun hh => (by cases hh),
      fun e' _ => hco⟩
  · cases b
    · exact ⟨⟨hcu, hcc, hcl⟩, fun d hd => (by cases hd), fun _ => hco,
        fun e' he' => (by cases he')⟩
    · obtain ⟨⟨lu, lc, ll⟩, lsome, lnone⟩ := calLoop_profile now0 polls (closeCmd now0 s).2
      exact ⟨⟨lu.trans hcu, lc.trans hcc, ll.trans hcl⟩,
        fun d hd => lsome d hd,
        fun hh => (lnone hh).trans hco,
        fun e' he' => absurd he' (calLoop_no_error now0 polls (closeCmd now0 s).2 e')⟩

/-- **C7, counterexample**: a successful calibration (device locks after
30 s) updates `time_open` to 30 but leaves `time_close` at its previous
value 42 — the claim that the elapsed time is recorded as the new
`time_open` *and* `time_close` is false. -/
theorem C7_counterexample :
    (calibrate 0 [30] c7State).1 = .ok (some 30) ∧
    (calibrate 0 [30] c7State).2.time_open = 30 ∧
    (calibrate 0 [30] c7State).2.time_close = 42 ∧
    (30 : ℚ) ≠ 42 := by
  have h1 : (calibrate 0 [30] c7State).1 = .ok (some ((30:ℚ) - 0)) := by rfl
  have h2 : (calibrate 0 [30] c7State).2.time_open = (30:ℚ) - 0 := by rfl
  rw [show (30:ℚ) - 0 = 30 by norm_num] at h1 h2
  exact ⟨h1, h2, by rfl, by norm_num⟩

/-- Witness for C7 amended: the concrete successful calibration records
30 as `time_open` and leaves `time_close` unchanged. -/
theorem C7_calibrate_profile_witness :
    (calibrate 0 [30] c7State).2.time_close = c7State.time_close ∧
    (calibrate 0 [30] c7State).2.time_open = 30 := by
  obtain ⟨⟨_, hc, _⟩, hsome, _⟩ := C7_calibrate_profile 0 [30] c7State
  refine ⟨hc, ?_⟩
  have h1 : (calibrate 0 [30] c7State).1 = .ok (some ((30:ℚ) - 0)) := by rfl
  have h2 := hsome ((30:ℚ) - 0) h1
  rw [h2]
  norm_num

/-! ## C10 -/

/-- **C10**: once the connection reference is discarded (`disconnect`
always discards it and returns success), `connect()` returns failure
leaving the state unchanged, and `_send_command` returns `None` touching
nothing but the `connected` flag — in particular the connection stays
`None` forever, so the instance can never reconnect, and nothing is ever
written to any transport. -/
theorem C10_disconnected_forever (s : AXARemote) (cmd : String) (h : s.connection = none) :
    (disconnect s).1 = true ∧ (disconnect s).2.connection = none ∧
    connect s = (.ok false, s) ∧
    sendCommand s cmd = (.ok none, { s with connected := false }) ∧
    ({ s with connected := false } : AXARemote).connection = none := by
  obtain ⟨conn, cd, bsy, dev, ver, tU, tO, tC, tL, st, pos, tg, tst⟩ := s
  dsimp only at h ⊢
  subst h
  exact ⟨rfl, rfl, rfl, rfl, rfl⟩

/-- Witness for C10 on a concrete disconnected engine. -/
theorem C10_disconnected_forever_witness :
    connect c10State = (.ok false, c10State) ∧
    sendCommand c10State "STATUS" = (.ok none, { c10State with connected := false }) := by
  have h := C10_disconnected_forever c10State "STATUS" rfl
  exact ⟨h.2.2.1, h.2.2.2.1⟩

/-! ## C9 -/

/-- **C9**: `stop()` during LOCKING returns `True` without sending any
`STOP` (the transport is untouched) but leaves `target_position` set to
the current position estimate `p`; once the LOCKING phase completes and a
status query reports LOCKED at 0.0 (target still pending), the next status
query writes an `OPEN` command to the device. -/
theorem C9_stop_while_locking (p : ℚ) (hp : 0 < p) :
    stopCmd (c9State p) = (.ok true, { c9State p with target_position := some p }) ∧
    (stopCmd (c9State p)).2.connection = (c9State p).connection ∧
    (statusQ 17 (stopCmd (c9State p)).2).1 = (some AXAStatus.LOCKED, 0) ∧
    (statusQ 17 (stopCmd (c9State p)).2).2.target_position = some p ∧
    (statusQ 18 (statusQ 17 (stopCmd (c9State p)).2).2).2.connection.map AXAConn.written =
      some ["OPEN\r\n"] ∧
    (statusQ 18 (statusQ 17 (stopCmd (c9State p)).2).2).2.status = some AXAStatus.UNLOCKING := by
  have h1 : (stopCmd (c9State p)).2 = { c9State p with target_position := some p } := by rfl
  have h2 := update_locking_to_locked 17 (-42) ({ c9State p with target_position := some p })
    rfl rfl (by show (17:ℚ) - (-42) > 42 + 16; norm_num)
  have h3 := update_idle_locked_dispatch 18
    ({ { c9State p with target_position := some p } with
        status := some AXAStatus.LOCKED, position := 0 }) p rfl rfl hp
  refine ⟨by rfl, by rfl, ?_, ?_, ?_, ?_⟩
  · show ((update 17 (stopCmd (c9State p)).2).status,
      (update 17 (stopCmd (c9State p)).2).position) = (some AXAStatus.LOCKED, 0)
    rw [h1, h2]
  · show (update 17 (stopCmd (c9State p)).2).target_position = some p
    rw [h1, h2]
  · show (update 18 (update 17 (stopCmd (c9State p)).2)).connection.map AXAConn.written =
      some ["OPEN\r\n"]
    rw [h1, h2, h3]
    rfl
  · show (update 18 (update 17 (stopCmd (c9State p)).2)).status = some AXAStatus.UNLOCKING
    rw [h1, h2, h3]
    rfl

/-- Witness for C9 at `p = 50`. -/
theorem C9_stop_while_locking_witness :
    stopCmd (c9State 50) = (.ok true, { c9State 50 with target_position := some 50 }) ∧
    (statusQ 18 (statusQ 17 (stopCmd (c9State 50)).2).2).2.connection.map AXAConn.written =
      some ["OPEN\r\n"] := by
  have h := C9_stop_while_locking 50 (by norm_num)
  exact ⟨h.1, h.2.2.2.2.1⟩

/-! ## C8 -/

/-- OPENING before the phase would complete, with a pending target not yet
overshot: the OPENING interpolation formula applies unclamped. -/
theorem update_opening_mid (now ts : ℚ) (s : AXARemote) (tp : ℚ)
    (hst : s.status = some .OPENING) (hts : s.timestamp = some ts)
    (h2 : ¬(now - ts > s.time_unlock + s.time_open))
    (htg : s.target_position = some tp)
    (hle : ¬((now - ts - s.time_unlock) / s.time_open * 100 > tp)) :
    update now s = { s with position := (now - ts - s.time_unlock) / s.time_open * 100 } := by
  obtain ⟨conn, cd, bsy, dev, ver, tU, tO, tC, tL, st, pos, tg, tst⟩ := s
  dsimp only at hst hts h2 htg hle ⊢
  subst hst; subst hts; subst htg
  rw [update_moving_of_not_idle _ _ (by simp)]
  simp [updateMoving, h2, hle]

/-- **C8 is violated by the code**: starting from a reachable state
(LOCKED at 0, connected and initialised), the public calls
`set_position(50.0)` at time 0 followed by `sync_status()` at time 1 —
with the device acknowledging the `OPEN` and then reporting raw UnLocked —
leave `position = (1-0-5)/42*100 = -200/21 ≈ -9.52`, strictly below the
claimed lower bound 0.0.  The reconciliation branch for raw UNLOCKED
during presumed UNLOCKING sets the phase to OPENING without backdating the
timestamp by `time_unlock` (its sibling branch at line 568 does backdate),
so the OPENING formula goes negative. -/
theorem C8_position_invariant_violated :
    (sync_status 1 c8Mid).1 = .ok (some AXAStatus.OPENING, (1 - 0 - 5) / 42 * 100) ∧
    (sync_status 1 c8Mid).2.position = (1 - 0 - 5) / 42 * 100 ∧
    ((1:ℚ) - 0 - 5) / 42 * 100 = -200/21 ∧
    (sync_status 1 c8Mid).2.position < 0 := by
  have hsync : sync_status 1 c8Mid = (.ok (statusQ 1 c8s3).1, (statusQ 1 c8s3).2) := by rfl
  have hup := update_opening_mid 1 0 c8s3 50 rfl rfl
    (show ¬((1:ℚ) - 0 > 5 + 42) by norm_num) rfl
    (show ¬(((1:ℚ) - 0 - 5) / 42 * 100 > 50) by norm_num)
  have hval : ((1:ℚ) - 0 - 5) / 42 * 100 = -200/21 := by norm_num
  refine ⟨?_, ?_, hval, ?_⟩
  · rw [hsync]
    show Except.ok ((update 1 c8s3).status, (update 1 c8s3).position) =
      .ok (some AXAStatus.OPENING, (1 - 0 - 5) / 42 * 100)
    rw [hup]
    rfl
  · rw [hsync]
    show (update 1 c8s3).position = (1 - 0 - 5) / 42 * 100
    rw [hup]
    rfl
  · rw [hsync]
    show (update 1 c8s3).position < 0
    rw [hup]
    show ((1:ℚ) - 0 - 5) / 42 * 100 < 0
    norm_num

/-! ## C3 -/

/-- The read loop consumes a correct echo line and resets the blank
counter. -/
theorem echoLoop_echo_step (cmd : String) (rest : List String) (ec : Nat)
    (hec : ec ≤ 5) (hcs : pyStrip cmd = cmd) (hcne : cmd ≠ "") :
    echoLoop cmd (cmd :: rest) ec false = echoLoop cmd rest 0 true := by
  have h5 : ¬(5 < ec) := by omega
  rw [echoLoop.eq_def]
  simp [h5, hcs, hcne]

/-- After the echo, the next non-blank line is returned (stripped). -/
theorem echoLoop_response (cmd l : String) (rest : List String) (ec : Nat)
    (hec : ec ≤ 5) (hl : pyStrip l = l) (hne : l ≠ "") :
    echoLoop cmd (l :: rest) ec true = (.ok l, rest) := by
  have h5 : ¬(5 < ec) := by omega
  rw [echoLoop.eq_def]
  simp [h5, hl, hne]

/-- A clean command/response exchange: open transport, not busy, the
script starts with the exact echo followed by a non-blank response. -/
theorem sendCommand_exchange (s : AXARemote) (c : AXAConn) (cmd resp : String)
    (rest : List String)
    (hconn : s.connection = some c) (hopen : c.is_open = true) (hbusy : s.busy = false)
    (hinc : c.incoming = pyUpper cmd :: resp :: rest)
    (hcs : pyStrip (pyUpper cmd) = pyUpper cmd) (hcne : pyUpper cmd ≠ "")
    (hr : pyStrip resp = resp) (hrne : resp ≠ "") :
    sendCommand s cmd = (.ok (some resp),
      { s with
        busy := false
        connected := s.connected
        connection := some { c with
          incoming := rest
          written := c.written ++ [pyUpper cmd ++ "\r\n"] } }) := by
  unfold sendCommand sendCommandCore connectInner
  rw [hconn]
  simp only [hopen, if_true, reduceIte, hbusy, Bool.false_eq_true, if_false, hinc]
  rw [echoLoop_echo_step (pyUpper cmd) (resp :: rest) 0 (by omega) hcs hcne,
    echoLoop_response (pyUpper cmd) resp rest 0 (by omega) hr hrne]

/-- Full symbolic evaluation of the first `connect()` on the C3 scenario:
identification succeeds, and the result is decided by the split of the
STATUS response line `l`, mirroring the source's if/elif chain. -/
theorem c3_connect_eval (l : String) (hl : pyStrip l = l) (hne : l ≠ "") :
    connect (c3Start l) =
      (if (splitResponse (some l)).1 = .raw .STRONG_LOCKED then
        (.ok true, { c3s3 l with status := some .LOCKED, position := 0 })
      else if (splitResponse (some l)).1 = .raw .WEAK_LOCKED then
        (.ok true, { c3s3 l with status := some .LOCKED, position := 0 })
      else if (splitResponse (some l)).1 = .raw .UNLOCKED then
        (.ok true, { c3s3 l with status := some .OPEN, position := 100 })
      else (.ok false, c3s3 l)) := by
  have hdev : sendCommand (c3Start l) "DEVICE" =
      (.ok (some "260 AXA Remote 2.0"), { c3Start l with connection := some (c3Conn1 l) }) :=
    sendCommand_exchange (c3Start l) (c3Conn l) "DEVICE" "260 AXA Remote 2.0"
      ["VERSION", "261 Firmware v2.0", "STATUS", l]
      rfl rfl rfl (by rfl) (by rfl) (by decide) (by rfl) (by decide)
  have hver : sendCommand (c3s1 l) "VERSION" =
      (.ok (some "261 Firmware v2.0"), { c3s1 l with connection := some (c3Conn2 l) }) :=
    sendCommand_exchange (c3s1 l) (c3Conn1 l) "VERSION" "261 Firmware v2.0"
      ["STATUS", l]
      rfl rfl rfl (by rfl) (by rfl) (by decide) (by rfl) (by decide)
  have hsta : sendCommand (c3s2 l) "STATUS" = (.ok (some l), c3s3 l) :=
    sendCommand_exchange (c3s2 l) (c3Conn2 l) "STATUS" l []
      rfl rfl rfl (by rfl) (by rfl) (by decide) hl hne
  have heta0 : ({ c3Start l with connection := some (c3Conn l) } : AXARemote) = c3Start l := rfl
  have heta1 : ({ { c3Start l with connection := some (c3Conn1 l) } with
      device := some "AXA Remote 2.0" } : AXARemote) = c3s1 l := rfl
  have heta2 : ({ { c3s1 l with connection := some (c3Conn2 l) } with
      version := some "v2.0" } : AXARemote) = c3s2 l := rfl
  have hsp1 : splitResponse (some "260 AXA Remote 2.0") =
      (.raw .DEVICE, some "AXA Remote 2.0") := by rfl
  have hsp2 : splitResponse (some "261 Firmware v2.0") =
      (.raw .VERSION, some "Firmware v2.0") := by rfl
  have hspl : pySplitMax1 "Firmware v2.0" = ["Firmware", "v2.0"] := by rfl
  have hci : connectInner (c3Start l).connection = (true, some (c3Conn l)) := rfl
  have hver0 : (c3Start l).version.isSome = false := rfl
  rcases hsp : splitResponse (some l) with ⟨code, txt⟩
  unfold connect rawStatus
  simp only [hci, heta0, hver0, Bool.false_eq_true, if_false, hdev, hsp1, hver, hsp2, hsta,
    heta1, heta2, hspl, hsp, Option.getD, Except.map, reduceIte, ne_eq, not_true_eq_false,
    if_true]

/-- **C3, counterexample**: when the STATUS poll at the end of a first
successful identification returns a raw status that is neither lock state
nor UNLOCKED (here `200 OK`), `connect()` returns failure and leaves
`status`/`position` untouched — not OPEN/100.0 with success as claimed. -/
theorem C3_counterexample :
    (connect (c3Start "200 OK")).1 = .ok false ∧
    (connect (c3Start "200 OK")).2.status = none ∧
    (connect (c3Start "200 OK")).2.position = 0 ∧
    (c3Start "200 OK").status = none ∧ (c3Start "200 OK").position = 0 := by
  exact ⟨by rfl, by rfl, by rfl, rfl, rfl⟩

/-- **C3, amended**: on first successful connect, after identification
succeeds, the STATUS poll initialises the state as follows:
STRONG_LOCKED or WEAK_LOCKED → success, LOCKED, position 0.0;
UNLOCKED → success, OPEN, position 100.0; any other raw status →
`connect()` returns failure and `status`/`position` are unchanged. -/
theorem C3_first_connect_init (l : String) (hl : pyStrip l = l) (hne : l ≠ "") :
    ((splitResponse (some l)).1 = .raw .STRONG_LOCKED ∨
     (splitResponse (some l)).1 = .raw .WEAK_LOCKED →
      (connect (c3Start l)).1 = .ok true ∧
      (connect (c3Start l)).2.status = some AXAStatus.LOCKED ∧
      (connect (c3Start l)).2.position = 0) ∧
    ((splitResponse (some l)).1 = .raw .UNLOCKED →
      (connect (c3Start l)).1 = .ok true ∧
      (connect (c3Start l)).2.status = some AXAStatus.OPEN ∧
      (connect (c3Start l)).2.position = 100) ∧
    ((splitResponse (some l)).1 ≠ .raw .STRONG_LOCKED →
     (splitResponse (some l)).1 ≠ .raw .WEAK_LOCKED →
     (splitResponse (some l)).1 ≠ .raw .UNLOCKED →
      (connect (c3Start l)).1 = .ok false ∧
      (connect (c3Start l)).2.status = (c3Start l).status ∧
      (connect (c3Start l)).2.position = (c3Start l).position) := by
  have h := c3_connect_eval l hl hne
  refine ⟨?_, ?_, ?_⟩
  · rintro (h1 | h1)
    · rw [h, if_pos h1]
      exact ⟨rfl, rfl, rfl⟩
    · have hn1 : ¬((splitResponse (some l)).1 = .raw .STRONG_LOCKED) := by
        rw [h1]; decide
      rw [h, if_neg hn1, if_pos h1]
      exact ⟨rfl, rfl, rfl⟩
  · intro h1
    have hn1 : ¬((splitResponse (some l)).1 = .raw .STRONG_LOCKED) := by
      rw [h1]; decide
    have hn2 : ¬((splitResponse (some l)).1 = .raw .WEAK_LOCKED) := by
      rw [h1]; decide
    rw [h, if_neg hn1, if_neg hn2, if_pos h1]
    exact ⟨rfl, rfl, rfl⟩
  · intro h1 h2 h3
    rw [h, if_neg h1, if_neg h2, if_neg h3]
    exact ⟨rfl, rfl, rfl⟩

/-- Witness for C3 amended at the three kinds of STATUS response. -/
theorem C3_first_connect_init_witness :
    ((connect (c3Start "211 Strong Locked")).1 = .ok true ∧
     (connect (c3Start "211 Strong Locked")).2.status = some AXAStatus.LOCKED ∧
     (connect (c3Start "211 Strong Locked")).2.position = 0) ∧
    ((connect (c3Start "210 Unlocked")).1 = .ok true ∧
     (connect (c3Start "210 Unlocked")).2.status = some AXAStatus.OPEN ∧
     (connect (c3Start "210 Unlocked")).2.position = 100) ∧
    ((connect (c3Start "502 Command not implemented")).1 = .ok false ∧
     (connect (c3Start "502 Command not implemented")).2.status =
       (c3Start "502 Command not implemented").status ∧
     (connect (c3Start "502 Command not implemented")).2.position =
       (c3Start "502 Command not implemented").position) := by
  refine ⟨(C3_first_connect_init "211 Strong Locked" (by rfl) (by decide)).1 (Or.inl (by rfl)),
    (C3_first_connect_init "210 Unlocked" (by rfl) (by decide)).2.1 (by rfl),
    (C3_first_connect_init "502 Command not implemented" (by rfl) (by decide)).2.2
      (by decide) (by decide) (by decide)⟩
